import Mathlib

/-!
Shallow embedding of the portfolio-ranking core of the esg-engine repository
(function `rank_portfolio` in `backend/analytics.py`), together with the final
ordering-and-cap step of the controversy lookup (`flag_controversies`, same
file).  Python floats are modelled as exact rationals; the floating-point
standard deviation `sqrt(var)` is modelled with `Real.sqrt` applied to the
rational sample variance.
-/

namespace ESGEngine

/-- Reference-universe record as consumed by `rank_portfolio`: the `ticker`
key, the numeric columns listed in `numeric_cols` in the source
(`environmental, social, governance, esg_score, roic, market_cap`), and the
required `last_updated` timestamp string that every stored record carries
and the merge copies into the output table. -/
structure ESGRecord where
  ticker : String
  environmental : ℚ
  social : ℚ
  governance : ℚ
  esg_score : ℚ
  roic : ℚ
  market_cap : ℚ
  last_updated : String
  deriving DecidableEq, Repr

/-- Input row of the portfolio dataframe: columns `ticker` and `weight`. -/
structure PortfolioLine where
  ticker : String
  weight : ℚ
  deriving DecidableEq, Repr

/-- Output row of `rank_portfolio`: the merged columns plus the derived
columns `weighted_esg, weighted_roic, esg_zscore, roic_zscore`.  The z-score
columns are real-valued because the source divides by a float standard
deviation (a square root).  `last_updated` is the merged timestamp column:
`none` models the NaN cell of an unmatched row (`fillna(0)` covers only the
numeric columns, so that cell stays NaN). -/
structure RankedRow where
  ticker : String
  weight : ℚ
  environmental : ℚ
  social : ℚ
  governance : ℚ
  esg_score : ℚ
  roic : ℚ
  market_cap : ℚ
  weighted_esg : ℚ
  weighted_roic : ℚ
  esg_zscore : ℝ
  roic_zscore : ℝ
  last_updated : Option String

/-- Projection dropping the `last_updated` cell of a row, used to compare
output tables up to the summary row's wall-clock timestamp. -/
def stripTimestamp (row : RankedRow) : RankedRow :=
  { row with last_updated := none }

/-- The two `ValueError`s `rank_portfolio` can raise after the column check:
`"Weights must sum to 1.0"` (no payload: the message does not include the
observed sum) and `"No ESG data found in database. Run data ingestion
first."`. -/
inductive RankError where
  | weightSum
  | noReferenceData
  deriving DecidableEq, Repr

/-- Model of `np.isclose(a, b, atol=...)` for scalars: `np.isclose` tests
`|a - b| <= atol + rtol * |b|`, and `rtol` keeps its numpy default `1e-5`
when only `atol` is passed, as in the source. -/
def npIsClose (a b atol rtol : ℚ) : Prop :=
  |a - b| ≤ atol + rtol * |b|

instance (a b atol rtol : ℚ) : Decidable (npIsClose a b atol rtol) := by
  unfold npIsClose
  exact inferInstance

/-- Model of `df['weight'].sum()`. -/
def weightSum (lines : List PortfolioLine) : ℚ :=
  (lines.map PortfolioLine.weight).sum

/-- One merged row of `df.merge(esg_df, on='ticker', how='left')`: the left
line together with the matched universe record, or `none` for the all-NaN
right side of an unmatched left row. -/
structure JoinedRow where
  line : PortfolioLine
  record : Option ESGRecord
  deriving DecidableEq, Repr

/-- Rows a single portfolio line contributes to the left merge: one row per
matching universe record (pandas multiplies rows on duplicate keys, keeping
the right-hand order), or a single NaN-filled row when nothing matches. -/
def joinOne (u : List ESGRecord) (l : PortfolioLine) : List JoinedRow :=
  match u.filter (fun r => decide (r.ticker = l.ticker)) with
  | [] => [⟨l, none⟩]
  | ms => ms.map (fun r => ⟨l, some r⟩)

/-- Model of the left merge `df.merge(esg_df, on='ticker', how='left')`:
left rows in order, each expanded by `joinOne`. -/
def joinedRows (lines : List PortfolioLine) (u : List ESGRecord) : List JoinedRow :=
  lines.flatMap (joinOne u)

/-- Model of `result_df[result_df['esg_score'].isna()]['ticker'].tolist()`:
the tickers of merged rows whose right side is missing (printed as the
non-fatal unmatched-ticker warning). -/
def missing_tickers (lines : List PortfolioLine) (u : List ESGRecord) : List String :=
  (((joinedRows lines u).filter (fun j => j.record.isNone)).map (fun j => j.line.ticker))

/-- The `esg_score` column of the universe dataframe. -/
def esgScores (u : List ESGRecord) : List ℚ := u.map ESGRecord.esg_score

/-- The `roic` column of the universe dataframe. -/
def roicScores (u : List ESGRecord) : List ℚ := u.map ESGRecord.roic

/-- Model of `Series.mean()`. -/
def listMean (xs : List ℚ) : ℚ := xs.sum / xs.length

/-- Model of the square of `Series.std()` (sample variance, `ddof=1`).  For
fewer than two values pandas returns NaN; the only use of the standard
deviation in the source is the `std > 0` guard, which NaN fails exactly as
`0` does, so that case is mapped to `0` here. -/
def sampleVar (xs : List ℚ) : ℚ :=
  if 2 ≤ xs.length then
    (xs.map (fun x => (x - listMean xs) ^ 2)).sum / ((xs.length : ℚ) - 1)
  else 0

/-- Model of one entry of a z-score column `(col - mean) / std` with the
source's division-by-zero guard: `std = sqrt(var) > 0` holds iff `var > 0`
(and is false for the NaN standard deviation of a singleton universe), and
the whole column is set to `0` when the guard fails. -/
noncomputable def zscoreVal (x : ℚ) (xs : List ℚ) : ℝ :=
  if 0 < sampleVar xs then ((x : ℝ) - (listMean xs : ℝ)) / Real.sqrt (sampleVar xs : ℝ)
  else 0

/-- Model of `result_df[numeric_cols].fillna(0)` on one merged row: an
unmatched row (NaN right side) gets every numeric column replaced by `0`,
keeping the left-hand ticker.  Only the six numeric columns of the default
record are ever read: `last_updated` is not in `numeric_cols`, so `preRow`
takes that column from the matched record directly (NaN, i.e. `none`, when
unmatched). -/
def fillRecord (t : String) (o : Option ESGRecord) : ESGRecord :=
  o.getD ⟨t, 0, 0, 0, 0, 0, 0, ""⟩

/-- One fully annotated row of `result_df` before sorting: numeric columns
filled, `weighted_esg = weight * esg_score`, `weighted_roic = weight * roic`,
and the two z-score columns computed against the whole universe. -/
noncomputable def preRow (u : List ESGRecord) (j : JoinedRow) : RankedRow :=
  let r := fillRecord j.line.ticker j.record
  { ticker := j.line.ticker
    weight := j.line.weight
    environmental := r.environmental
    social := r.social
    governance := r.governance
    esg_score := r.esg_score
    roic := r.roic
    market_cap := r.market_cap
    weighted_esg := j.line.weight * r.esg_score
    weighted_roic := j.line.weight * r.roic
    esg_zscore := zscoreVal r.esg_score (esgScores u)
    roic_zscore := zscoreVal r.roic (roicScores u)
    last_updated := j.record.map ESGRecord.last_updated }

/-- The annotated merged rows, still in input-line order. -/
noncomputable def preRows (lines : List PortfolioLine) (u : List ESGRecord) : List RankedRow :=
  (joinedRows lines u).map (preRow u)

/-- Descending comparison on `esg_score`: `a` may precede `b` iff
`b.esg_score ≤ a.esg_score`. -/
def rowDescRel : RankedRow → RankedRow → Prop :=
  fun a b => b.esg_score ≤ a.esg_score

instance : DecidableRel rowDescRel :=
  fun a b => inferInstanceAs (Decidable (b.esg_score ≤ a.esg_score))

/-- Model of `result_df.sort_values('esg_score', ascending=False)`.  The
source leaves `kind` at its default `'quicksort'`, which pandas does not
document as stable: once a tie of equal `esg_score` values exceeds numpy's
small-sort threshold (about 16 elements) the introsort partition swaps make
the relative order of tied rows implementation-defined rather than input
order.  The model fixes Mathlib's `insertionSort` on the descending relation
as one canonical representative of the sorted-by-`esg_score` outputs; no
theorem below relies on the relative order of tied rows. -/
noncomputable def sortedRows (lines : List PortfolioLine) (u : List ESGRecord) : List RankedRow :=
  List.insertionSort rowDescRel (preRows lines u)

/-- Model of the `summary_row` dataframe appended by `rank_portfolio`: the
sentinel ticker, weight `1.0`, the portfolio sums of the (already sorted)
`weighted_esg` and `weighted_roic` columns in `esg_score`/`roic` and again in
`weighted_esg`/`weighted_roic`, `0` in every other numeric cell, and the
wall-clock timestamp `datetime.now().isoformat()` (analytics.py line 174) in
`last_updated` — the clock reading is passed in as `now`. -/
noncomputable def summary_row (now : String) (rows : List RankedRow) : RankedRow :=
  { ticker := "PORTFOLIO_TOTAL"
    weight := 1
    environmental := 0
    social := 0
    governance := 0
    esg_score := (rows.map RankedRow.weighted_esg).sum
    roic := (rows.map RankedRow.weighted_roic).sum
    market_cap := 0
    weighted_esg := (rows.map RankedRow.weighted_esg).sum
    weighted_roic := (rows.map RankedRow.weighted_roic).sum
    esg_zscore := 0
    roic_zscore := 0
    last_updated := some now }

/-- Model of `rank_portfolio(df)` (analytics.py lines 95-182), with the
reference universe `u` (the record store's `get_all_records()`) and the
wall-clock reading `now` (the `datetime.now().isoformat()` taken while
building the summary row) passed as explicit arguments.  The weight
validation is `np.isclose(df['weight'].sum(), 1.0, atol=1e-6)` with numpy's
default relative tolerance `1e-5`; the empty-universe check is
`esg_df.empty`; the output is the sorted annotated table with the summary
row appended. -/
noncomputable def rank_portfolio (now : String) (lines : List PortfolioLine)
    (u : List ESGRecord) : Except RankError (List RankedRow) :=
  if ¬ npIsClose (weightSum lines) 1 (1e-6) (1e-5) then
    Except.error RankError.weightSum
  else if u = [] then
    Except.error RankError.noReferenceData
  else
    Except.ok (sortedRows lines u ++ [summary_row now (sortedRows lines u)])

/-- Descending comparison on the date component (the first component) of a
controversy tuple `(date, title, link)`. -/
def ctrlDescRel : String × String × String → String × String × String → Prop :=
  fun a b => b.1 ≤ a.1

instance : DecidableRel ctrlDescRel :=
  fun a b => inferInstanceAs (Decidable (b.1 ≤ a.1))

instance : IsTotal (String × String × String) ctrlDescRel :=
  ⟨fun a b => le_total b.1 a.1⟩

instance : IsTrans (String × String × String) ctrlDescRel :=
  ⟨fun _ _ _ hab hbc => le_trans hbc hab⟩

/-- Model of the final step of `flag_controversies` (analytics.py lines
284-288): `controversies.sort(key=lambda x: x[0], reverse=True)` followed by
`controversies[:10]`, applied to whatever list of `(date, title, link)`
tuples the feed scan accumulated.  Python's `list.sort` is stable and
`reverse=True` keeps ties in their original order, which is exactly the
stable `insertionSort` on the descending relation. -/
def flag_controversies_ordered (cs : List (String × String × String)) :
    List (String × String × String) :=
  (List.insertionSort ctrlDescRel cs).take 10

/-- Concrete two-line portfolio used to exercise the embedding (weights from
the repository's own test suite). -/
def demoLines : List PortfolioLine := [⟨"AAPL", 0.6⟩, ⟨"MSFT", 0.4⟩]

/-- Concrete clock reading used to exercise the embedding (timestamp from
the repository's own test suite). -/
def demoNow : String := "2025-01-01T00:00:00"

/-- Second, later clock reading, for comparing two calls made at different
times. -/
def laterNow : String := "2025-01-01T00:00:01"

/-- Concrete two-record reference universe (values from the repository's own
test suite). -/
def demoUniverse : List ESGRecord :=
  [⟨"AAPL", 85.5, 78.2, 92.1, 85.3, 0.295, 3000, "2025-01-01T00:00:00"⟩,
   ⟨"MSFT", 88.1, 82.5, 89.3, 86.6, 0.245, 2800, "2025-01-01T00:00:00"⟩]

/-- Degenerate single-record universe (sample standard deviation undefined /
NaN in pandas, guard fails, z-scores 0). -/
def singleUniverse : List ESGRecord :=
  [⟨"AAPL", 85.5, 78.2, 92.1, 85.3, 0.295, 3000, "2025-01-01T00:00:00"⟩]

/-- Two-record universe with distinct scores and nonzero means, for the
z-score computations. -/
def variedUniverse : List ESGRecord :=
  [⟨"AAPL", 85, 78, 92, 85, 0.2, 3000, "2025-01-01T00:00:00"⟩,
   ⟨"MSFT", 88, 82, 89, 87, 0.3, 2800, "2025-01-01T00:00:00"⟩]

/-- Twenty full-tie lines: valid weights (each `0.05`, summing to `1.0`) and
twenty tickers absent from the demo universe, so every holding gets
`esg_score = 0` — a 20-way tie, beyond numpy's small-sort threshold. -/
def tieLines : List PortfolioLine :=
  [⟨"T01", 0.05⟩, ⟨"T02", 0.05⟩, ⟨"T03", 0.05⟩, ⟨"T04", 0.05⟩, ⟨"T05", 0.05⟩,
   ⟨"T06", 0.05⟩, ⟨"T07", 0.05⟩, ⟨"T08", 0.05⟩, ⟨"T09", 0.05⟩, ⟨"T10", 0.05⟩,
   ⟨"T11", 0.05⟩, ⟨"T12", 0.05⟩, ⟨"T13", 0.05⟩, ⟨"T14", 0.05⟩, ⟨"T15", 0.05⟩,
   ⟨"T16", 0.05⟩, ⟨"T17", 0.05⟩, ⟨"T18", 0.05⟩, ⟨"T19", 0.05⟩, ⟨"T20", 0.05⟩]

/-- Portfolio whose weights sum to `1.000005`: off by more than `1e-6` but
within numpy's effective `isclose` tolerance `1e-6 + 1e-5`. -/
def badLines : List PortfolioLine := [⟨"AAPL", 0.5⟩, ⟨"MSFT", 0.500005⟩]

/-- Single full-weight line whose ticker is the summary sentinel itself. -/
def sentinelLines : List PortfolioLine := [⟨"PORTFOLIO_TOTAL", 1⟩]

/-- Single full-weight line whose ticker matches no universe record. -/
def unmatchedLines : List PortfolioLine := [⟨"ZZZZ", 1⟩]

/-! Helper lemmas about the embedding. -/

theorem rank_eq_ok (now : String) (lines : List PortfolioLine) (u : List ESGRecord)
    (hw : npIsClose (weightSum lines) 1 (1e-6) (1e-5)) (hu : u ≠ []) :
    rank_portfolio now lines u =
      Except.ok (sortedRows lines u ++ [summary_row now (sortedRows lines u)]) := by
  simp [rank_portfolio, hw, hu]

theorem sortedRows_perm (lines : List PortfolioLine) (u : List ESGRecord) :
    (sortedRows lines u).Perm (preRows lines u) :=
  List.perm_insertionSort rowDescRel (preRows lines u)

theorem mem_sortedRows (lines : List PortfolioLine) (u : List ESGRecord) (row : RankedRow) :
    row ∈ sortedRows lines u ↔ row ∈ preRows lines u :=
  (sortedRows_perm lines u).mem_iff

theorem preRow_weighted (u : List ESGRecord) (j : JoinedRow) :
    (preRow u j).weighted_esg = (preRow u j).weight * (preRow u j).esg_score ∧
      (preRow u j).weighted_roic = (preRow u j).weight * (preRow u j).roic :=
  ⟨rfl, rfl⟩

theorem mem_preRows (lines : List PortfolioLine) (u : List ESGRecord) (row : RankedRow) :
    row ∈ preRows lines u ↔ ∃ j ∈ joinedRows lines u, preRow u j = row := by
  simp [preRows]

theorem preRows_weighted (lines : List PortfolioLine) (u : List ESGRecord) :
    ∀ row ∈ preRows lines u,
      row.weighted_esg = row.weight * row.esg_score ∧
        row.weighted_roic = row.weight * row.roic := by
  intro row hrow
  rcases (mem_preRows lines u row).mp hrow with ⟨j, _, hj⟩
  rw [← hj]
  exact preRow_weighted u j

theorem joinOne_of_unmatched (u : List ESGRecord) (l : PortfolioLine)
    (hmiss : ∀ r ∈ u, r.ticker ≠ l.ticker) :
    joinOne u l = [⟨l, none⟩] := by
  have hf : u.filter (fun r => decide (r.ticker = l.ticker)) = [] := by
    rw [List.filter_eq_nil_iff]
    intro r hr
    simp [hmiss r hr]
  unfold joinOne
  rw [hf]

theorem joinOne_line (u : List ESGRecord) (l : PortfolioLine) :
    ∀ j ∈ joinOne u l, j.line = l := by
  intro j hj
  unfold joinOne at hj
  rcases hfil : u.filter (fun r => decide (r.ticker = l.ticker)) with _ | ⟨m, ms⟩ <;>
    rw [hfil] at hj
  · simp at hj
    rw [hj]
  · rcases List.mem_map.mp hj with ⟨r, _, hr⟩
    rw [← hr]

theorem mem_joinedRows (lines : List PortfolioLine) (u : List ESGRecord) (j : JoinedRow) :
    j ∈ joinedRows lines u ↔ ∃ l ∈ lines, j ∈ joinOne u l := by
  simp [joinedRows]

theorem joinedRows_line_mem (lines : List PortfolioLine) (u : List ESGRecord) :
    ∀ j ∈ joinedRows lines u, j.line ∈ lines := by
  intro j hj
  rcases (mem_joinedRows lines u j).mp hj with ⟨l, hl, hjl⟩
  rw [joinOne_line u l j hjl]
  exact hl

theorem filter_ticker_length_le_one (u : List ESGRecord) (t : String)
    (hnodup : (u.map ESGRecord.ticker).Nodup) :
    (u.filter (fun r => decide (r.ticker = t))).length ≤ 1 := by
  induction u with
  | nil => simp
  | cons r u ih =>
    rw [List.map_cons, List.nodup_cons] at hnodup
    by_cases hrt : r.ticker = t
    · have hrest : u.filter (fun r => decide (r.ticker = t)) = [] := by
        rw [List.filter_eq_nil_iff]
        intro r' hr'
        simp only [decide_eq_true_eq]
        intro hr't
        exact hnodup.1 (by rw [hrt, ← hr't]; exact List.mem_map_of_mem ESGRecord.ticker hr')
      simp [List.filter_cons, hrt, hrest]
    · simpa [List.filter_cons, hrt] using ih hnodup.2

theorem joinOne_length (u : List ESGRecord) (l : PortfolioLine)
    (hnodup : (u.map ESGRecord.ticker).Nodup) :
    (joinOne u l).length = 1 := by
  unfold joinOne
  rcases hfil : u.filter (fun r => decide (r.ticker = l.ticker)) with _ | ⟨m, ms⟩
  · rw [hfil]
    rfl
  · have hlen := filter_ticker_length_le_one u l.ticker hnodup
    rw [hfil] at hlen
    simp only [List.length_cons] at hlen
    have hms : ms = [] := List.length_eq_zero.mp (by omega)
    rw [hfil, hms]
    rfl

theorem joinedRows_length (lines : List PortfolioLine) (u : List ESGRecord)
    (hnodup : (u.map ESGRecord.ticker).Nodup) :
    (joinedRows lines u).length = lines.length := by
  unfold joinedRows
  rw [List.length_flatMap]
  have hmap : List.map (List.length ∘ joinOne u) lines = List.map (fun _ => 1) lines :=
    List.map_congr_left (fun l _ => joinOne_length u l hnodup)
  rw [hmap]
  simp

theorem unmatched_mem (lines : List PortfolioLine) (u : List ESGRecord) (l : PortfolioLine)
    (hl : l ∈ lines) (hmiss : ∀ r ∈ u, r.ticker ≠ l.ticker) :
    preRow u ⟨l, none⟩ ∈ sortedRows lines u ∧ l.ticker ∈ missing_tickers lines u := by
  have hj : (⟨l, none⟩ : JoinedRow) ∈ joinedRows lines u := by
    rw [mem_joinedRows]
    refine ⟨l, hl, ?_⟩
    rw [joinOne_of_unmatched u l hmiss]
    exact List.mem_singleton_self _
  constructor
  · rw [mem_sortedRows, mem_preRows]
    exact ⟨⟨l, none⟩, hj, rfl⟩
  · unfold missing_tickers
    refine List.mem_map.mpr ⟨⟨l, none⟩, List.mem_filter.mpr ⟨hj, rfl⟩, rfl⟩

/-! Claim theorems. -/

/-- Claim C2 (code bug input): the valid 20-line portfolio `tieLines` over
the demo universe succeeds and every one of its 20 holdings (plus the
summary row) carries `esg_score = 0` — a 20-way tie, larger than numpy's
small-sort threshold, so the tie-breaking order demanded by the claim rests
entirely on sort stability, which the source's default
`sort_values(kind='quicksort')` does not provide. -/
theorem rank_portfolio_tie_regime :
    (rank_portfolio demoNow tieLines demoUniverse).map
        (fun rows => rows.map RankedRow.esg_score) =
      Except.ok (List.replicate 21 (0 : ℚ)) := by
  have hw : npIsClose (weightSum tieLines) 1 (1e-6) (1e-5) := by
    norm_num [npIsClose, weightSum, tieLines]
  rw [rank_eq_ok demoNow tieLines demoUniverse hw (by simp [demoUniverse])]
  norm_num [tieLines, demoUniverse, sortedRows, preRows, joinedRows, joinOne,
    preRow, fillRecord, summary_row, rowDescRel, esgScores, roicScores,
    List.orderedInsert, Except.map, List.replicate]

/-- Counterexample to C4 as stated: two calls on identical lines and
universe made at different wall-clock instants return different tables,
because the summary row's `last_updated` cell is `datetime.now()`. -/
theorem rank_portfolio_clock_cex :
    rank_portfolio demoNow demoLines demoUniverse ≠
      rank_portfolio laterNow demoLines demoUniverse := by
  have hw : npIsClose (weightSum demoLines) 1 (1e-6) (1e-5) := by
    norm_num [npIsClose, weightSum, demoLines]
  have hu : demoUniverse ≠ [] := by simp [demoUniverse]
  intro h
  have h2 := congrArg
    (Except.map (fun rows => (rows.getLast?).map RankedRow.last_updated)) h
  rw [rank_eq_ok demoNow demoLines demoUniverse hw hu,
    rank_eq_ok laterNow demoLines demoUniverse hw hu] at h2
  simp [Except.map, List.getLast?_concat, summary_row, demoNow, laterNow] at h2

/-- Claim C4 (amended): two calls of `rank_portfolio` on identical input
lines and an identical reference universe return tables identical in every
cell except the summary row's `last_updated` timestamp, and calls that also
read the same clock value return identical tables. -/
theorem rank_portfolio_pure_up_to_timestamp (now₁ now₂ : String)
    (l₁ l₂ : List PortfolioLine) (u₁ u₂ : List ESGRecord)
    (hl : l₁ = l₂) (hu : u₁ = u₂) :
    (rank_portfolio now₁ l₁ u₁).map (fun rows => rows.map stripTimestamp) =
      (rank_portfolio now₂ l₂ u₂).map (fun rows => rows.map stripTimestamp) ∧
    (now₁ = now₂ → rank_portfolio now₁ l₁ u₁ = rank_portfolio now₂ l₂ u₂) := by
  subst hl
  subst hu
  refine ⟨?_, fun hn => by rw [hn]⟩
  by_cases hw : npIsClose (weightSum l₁) 1 (1e-6) (1e-5)
  · by_cases hu0 : u₁ = []
    · rw [hu0]
      simp [rank_portfolio, hw]
    · rw [rank_eq_ok now₁ l₁ u₁ hw hu0, rank_eq_ok now₂ l₁ u₁ hw hu0]
      simp [Except.map, stripTimestamp, summary_row]
  · simp [rank_portfolio, hw]

/-- Witness for the amended C4 at the demo inputs and two distinct clock
readings. -/
theorem rank_portfolio_pure_up_to_timestamp_witness :
    (rank_portfolio demoNow demoLines demoUniverse).map
        (fun rows => rows.map stripTimestamp) =
      (rank_portfolio laterNow demoLines demoUniverse).map
        (fun rows => rows.map stripTimestamp) :=
  (rank_portfolio_pure_up_to_timestamp demoNow laterNow demoLines demoLines
    demoUniverse demoUniverse rfl rfl).1

/-- Claim C5: when the universe's sample variance of `esg_score`
(respectively `roic`) is zero — single-record or all-identical universe —
every output row gets `esg_zscore = 0` (respectively `roic_zscore = 0`) and
the call succeeds instead of dividing by zero. -/
theorem rank_portfolio_zero_variance (now : String) (lines : List PortfolioLine)
    (u : List ESGRecord)
    (hw : npIsClose (weightSum lines) 1 (1e-6) (1e-5)) (hu : u ≠ []) :
    ∃ rows, rank_portfolio now lines u = Except.ok rows ∧
      (sampleVar (esgScores u) = 0 → ∀ row ∈ rows, row.esg_zscore = 0) ∧
      (sampleVar (roicScores u) = 0 → ∀ row ∈ rows, row.roic_zscore = 0) := by
  refine ⟨_, rank_eq_ok now lines u hw hu, ?_, ?_⟩
  · intro hvar row hrow
    rcases List.mem_append.mp hrow with hmem | hmem
    · rcases (mem_preRows lines u row).mp ((mem_sortedRows lines u row).mp hmem) with ⟨j, _, hj⟩
      rw [← hj]
      show zscoreVal (fillRecord j.line.ticker j.record).esg_score (esgScores u) = 0
      unfold zscoreVal
      rw [hvar]
      simp
    · rw [List.mem_singleton.mp hmem]
      rfl
  · intro hvar row hrow
    rcases List.mem_append.mp hrow with hmem | hmem
    · rcases (mem_preRows lines u row).mp ((mem_sortedRows lines u row).mp hmem) with ⟨j, _, hj⟩
      rw [← hj]
      show zscoreVal (fillRecord j.line.ticker j.record).roic (roicScores u) = 0
      unfold zscoreVal
      rw [hvar]
      simp
    · rw [List.mem_singleton.mp hmem]
      rfl

/-- Witness for C5 at a full-weight single line over the single-record
universe, whose sample variances are both zero. -/
theorem rank_portfolio_zero_variance_witness :
    sampleVar (esgScores singleUniverse) = 0 ∧
    ∃ rows, rank_portfolio demoNow [⟨"AAPL", 1⟩] singleUniverse = Except.ok rows ∧
      (sampleVar (esgScores singleUniverse) = 0 → ∀ row ∈ rows, row.esg_zscore = 0) ∧
      (sampleVar (roicScores singleUniverse) = 0 → ∀ row ∈ rows, row.roic_zscore = 0) :=
  ⟨by norm_num [sampleVar, esgScores, singleUniverse],
   rank_portfolio_zero_variance demoNow [⟨"AAPL", 1⟩] singleUniverse
     (by norm_num [npIsClose, weightSum]) (by simp [singleUniverse])⟩

/-- Claim C6: an input line whose ticker is absent from the universe does not
make `rank_portfolio` raise: it yields an output row echoing the ticker and
requested weight with every numeric ESG/financial column zeroed (hence zero
weighted values), and the ticker lands in the unmatched-ticker warning
list. -/
theorem rank_portfolio_unmatched_ticker (now : String) (lines : List PortfolioLine)
    (u : List ESGRecord)
    (l : PortfolioLine) (hw : npIsClose (weightSum lines) 1 (1e-6) (1e-5)) (hu : u ≠ [])
    (hl : l ∈ lines) (hmiss : ∀ r ∈ u, r.ticker ≠ l.ticker) :
    ∃ rows, rank_portfolio now lines u = Except.ok rows ∧
      (∃ row ∈ rows,
        row.ticker = l.ticker ∧ row.weight = l.weight ∧
        row.environmental = 0 ∧ row.social = 0 ∧ row.governance = 0 ∧
        row.esg_score = 0 ∧ row.roic = 0 ∧ row.market_cap = 0 ∧
        row.weighted_esg = 0 ∧ row.weighted_roic = 0) ∧
      l.ticker ∈ missing_tickers lines u := by
  obtain ⟨hmem, hwarn⟩ := unmatched_mem lines u l hl hmiss
  refine ⟨_, rank_eq_ok now lines u hw hu,
    ⟨preRow u ⟨l, none⟩, List.mem_append_left _ hmem, ?_⟩, hwarn⟩
  simp [preRow, fillRecord]

/-- Witness for C6 at a full-weight unmatched line over the demo universe. -/
theorem rank_portfolio_unmatched_ticker_witness :
    (∀ r ∈ demoUniverse, r.ticker ≠ "ZZZZ") ∧
    ∃ rows, rank_portfolio demoNow unmatchedLines demoUniverse = Except.ok rows ∧
      (∃ row ∈ rows,
        row.ticker = (⟨"ZZZZ", 1⟩ : PortfolioLine).ticker ∧
        row.weight = (⟨"ZZZZ", 1⟩ : PortfolioLine).weight ∧
        row.environmental = 0 ∧ row.social = 0 ∧ row.governance = 0 ∧
        row.esg_score = 0 ∧ row.roic = 0 ∧ row.market_cap = 0 ∧
        row.weighted_esg = 0 ∧ row.weighted_roic = 0) ∧
      (⟨"ZZZZ", 1⟩ : PortfolioLine).ticker ∈ missing_tickers unmatchedLines demoUniverse :=
  ⟨by intro r hr; fin_cases hr <;> simp [demoUniverse],
   rank_portfolio_unmatched_ticker demoNow unmatchedLines demoUniverse ⟨"ZZZZ", 1⟩
     (by norm_num [npIsClose, weightSum, unmatchedLines]) (by simp [demoUniverse])
     (by simp [unmatchedLines])
     (by intro r hr; fin_cases hr <;> simp [demoUniverse])⟩

/-- Claim C7: with a non-empty portfolio and an empty reference universe,
`rank_portfolio` never silently returns a table, and as soon as the weight
check passes the raised error is the no-reference-data one. -/
theorem rank_portfolio_empty_universe (now : String) (lines : List PortfolioLine)
    (_hne : lines ≠ []) :
    (∀ rows, rank_portfolio now lines [] ≠ Except.ok rows) ∧
    (npIsClose (weightSum lines) 1 (1e-6) (1e-5) →
      rank_portfolio now lines [] = Except.error RankError.noReferenceData) := by
  constructor
  · intro rows
    by_cases hw : npIsClose (weightSum lines) 1 (1e-6) (1e-5)
    · simp [rank_portfolio, hw]
    · simp [rank_portfolio, hw]
  · intro hw
    simp [rank_portfolio, hw]

/-- Witness for C7 at a full-weight single line. -/
theorem rank_portfolio_empty_universe_witness :
    ([⟨"AAPL", 1⟩] : List PortfolioLine) ≠ [] ∧
    (npIsClose (weightSum [⟨"AAPL", 1⟩]) 1 (1e-6) (1e-5) →
      rank_portfolio demoNow [⟨"AAPL", 1⟩] [] = Except.error RankError.noReferenceData) :=
  ⟨by simp, (rank_portfolio_empty_universe demoNow [⟨"AAPL", 1⟩] (by simp)).2⟩

/-- Claim C9: the controversy list handed back by the lookup is ordered most
recent first (non-increasing date key) and capped at 10 entries, for every
accumulated candidate list. -/
theorem flag_controversies_cap_sorted (cs : List (String × String × String)) :
    (flag_controversies_ordered cs).length ≤ 10 ∧
    List.Sorted ctrlDescRel (flag_controversies_ordered cs) := by
  constructor
  · simp only [flag_controversies_ordered, List.length_take]
    omega
  · exact List.Pairwise.sublist (List.take_sublist 10 _)
      (List.sorted_insertionSort ctrlDescRel cs)

/-- Claim C1 (amended): for every valid input `rank_portfolio` appends one
summary row with the sentinel ticker, weight `1.0`, `esg_score` and `roic`
holding the sums over the holdings of `weight * esg_score` and
`weight * roic`, the same two sums repeated in `weighted_esg` and
`weighted_roic`, and every remaining numeric field zero. -/
theorem rank_portfolio_summary_fields (now : String) (lines : List PortfolioLine)
    (u : List ESGRecord)
    (hw : npIsClose (weightSum lines) 1 (1e-6) (1e-5)) (hu : u ≠ []) :
    rank_portfolio now lines u =
      Except.ok (sortedRows lines u ++ [summary_row now (sortedRows lines u)]) ∧
    (summary_row now (sortedRows lines u)).ticker = "PORTFOLIO_TOTAL" ∧
    (summary_row now (sortedRows lines u)).weight = 1 ∧
    (summary_row now (sortedRows lines u)).esg_score =
      ((sortedRows lines u).map (fun row => row.weight * row.esg_score)).sum ∧
    (summary_row now (sortedRows lines u)).roic =
      ((sortedRows lines u).map (fun row => row.weight * row.roic)).sum ∧
    (summary_row now (sortedRows lines u)).weighted_esg =
      (summary_row now (sortedRows lines u)).esg_score ∧
    (summary_row now (sortedRows lines u)).weighted_roic =
      (summary_row now (sortedRows lines u)).roic ∧
    (summary_row now (sortedRows lines u)).environmental = 0 ∧
    (summary_row now (sortedRows lines u)).social = 0 ∧
    (summary_row now (sortedRows lines u)).governance = 0 ∧
    (summary_row now (sortedRows lines u)).market_cap = 0 ∧
    (summary_row now (sortedRows lines u)).esg_zscore = 0 ∧
    (summary_row now (sortedRows lines u)).roic_zscore = 0 ∧
    (summary_row now (sortedRows lines u)).last_updated = some now := by
  refine ⟨rank_eq_ok now lines u hw hu, rfl, rfl, ?_, ?_, rfl, rfl, rfl, rfl, rfl, rfl,
    rfl, rfl, rfl⟩
  · show ((sortedRows lines u).map RankedRow.weighted_esg).sum = _
    congr 1
    refine List.map_congr_left ?_
    intro row hrow
    exact (preRows_weighted lines u row ((mem_sortedRows lines u row).mp hrow)).1
  · show ((sortedRows lines u).map RankedRow.weighted_roic).sum = _
    congr 1
    refine List.map_congr_left ?_
    intro row hrow
    exact (preRows_weighted lines u row ((mem_sortedRows lines u row).mp hrow)).2

/-- Witness for the amended C1 at the demo portfolio and universe. -/
theorem rank_portfolio_summary_fields_witness :
    npIsClose (weightSum demoLines) 1 (1e-6) (1e-5) ∧
    (summary_row demoNow (sortedRows demoLines demoUniverse)).esg_score =
      ((sortedRows demoLines demoUniverse).map (fun row => row.weight * row.esg_score)).sum :=
  ⟨by norm_num [npIsClose, weightSum, demoLines],
   (rank_portfolio_summary_fields demoNow demoLines demoUniverse
      (by norm_num [npIsClose, weightSum, demoLines]) (by simp [demoUniverse])).2.2.2.1⟩

/-- Counterexample to C1 as stated: at the demo input the summary row's
`weighted_esg` and `weighted_roic` are not zero — they repeat the portfolio
sums (`0.4 * 86.6 + 0.6 * 85.3 = 85.82`, with the MSFT row sorted first), so
not every numeric field besides `esg_score` and `roic` is zeroed. -/
theorem rank_portfolio_summary_cex :
    (rank_portfolio demoNow demoLines demoUniverse).map
        (fun rows => rows.map (fun row => (row.ticker, row.weighted_esg))) =
      Except.ok [("MSFT", 34.64), ("AAPL", 51.18), ("PORTFOLIO_TOTAL", 85.82)] ∧
    (85.82 : ℚ) ≠ 0 := by
  constructor
  · have hw : npIsClose (weightSum demoLines) 1 (1e-6) (1e-5) := by
      norm_num [npIsClose, weightSum, demoLines]
    rw [rank_eq_ok demoNow demoLines demoUniverse hw (by simp [demoUniverse])]
    norm_num [demoLines, demoUniverse, sortedRows, preRows, joinedRows, joinOne,
      preRow, fillRecord, summary_row, rowDescRel, esgScores, roicScores,
      List.orderedInsert, Except.map]
  · norm_num

/-- Claim C3 (amended): `rank_portfolio` raises the weight-sum error iff the
observed sum is farther from `1.0` than `np.isclose`'s effective tolerance
`atol + rtol * |1.0| = 1e-6 + 1e-5 = 1.1e-5`; the raised `ValueError` carries
only the fixed message, not the observed sum. -/
theorem rank_portfolio_weight_error_iff (now : String) (lines : List PortfolioLine)
    (u : List ESGRecord) :
    rank_portfolio now lines u = Except.error RankError.weightSum ↔
      ¬ |weightSum lines - 1| ≤ 11 / 1000000 := by
  have htol : npIsClose (weightSum lines) 1 (1e-6) (1e-5) ↔
      |weightSum lines - 1| ≤ 11 / 1000000 := by
    unfold npIsClose
    norm_num
  constructor
  · intro h hle
    have hw : npIsClose (weightSum lines) 1 (1e-6) (1e-5) := htol.mpr hle
    by_cases hu : u = []
    · rw [hu] at h
      simp [rank_portfolio, hw] at h
    · rw [rank_eq_ok now lines u hw hu] at h
      exact Except.noConfusion h
  · intro hnle
    have hw : ¬ npIsClose (weightSum lines) 1 (1e-6) (1e-5) := fun h => hnle (htol.mp h)
    simp [rank_portfolio, hw]

/-- Witness for the amended C3: weights summing to `0.6 + 0.5 = 1.1` trigger
the weight-sum error. -/
theorem rank_portfolio_weight_error_iff_witness :
    rank_portfolio demoNow [⟨"AAPL", 0.6⟩, ⟨"MSFT", 0.5⟩] demoUniverse =
      Except.error RankError.weightSum :=
  (rank_portfolio_weight_error_iff demoNow [⟨"AAPL", 0.6⟩, ⟨"MSFT", 0.5⟩] demoUniverse).mpr
    (by norm_num [weightSum, abs_le])

/-- Counterexample to C3 as stated: `badLines` sums to `1.000005`, which is
farther from `1.0` than the claimed strict tolerance `1e-6`, yet the call
succeeds because `np.isclose` also adds its default relative tolerance
`1e-5`. -/
theorem rank_portfolio_tolerance_cex :
    (1e-6 : ℚ) < |weightSum badLines - 1| ∧
    (rank_portfolio demoNow badLines demoUniverse).isOk = true := by
  constructor
  · refine lt_of_lt_of_le ?_ (le_abs_self _)
    norm_num [weightSum, badLines]
  · have hw : npIsClose (weightSum badLines) 1 (1e-6) (1e-5) := by
      norm_num [npIsClose, weightSum, badLines, abs_le]
    rw [rank_eq_ok demoNow badLines demoUniverse hw (by simp [demoUniverse])]
    rfl

/-- Claim C8 (amended): for every valid input over a universe with at most
one record per ticker and no input line using the sentinel ticker, the
output has exactly `lines.length` holding rows plus one summary row, and
exactly one row carries the sentinel ticker. -/
theorem rank_portfolio_row_count (now : String) (lines : List PortfolioLine)
    (u : List ESGRecord)
    (hw : npIsClose (weightSum lines) 1 (1e-6) (1e-5)) (hu : u ≠ [])
    (hnodup : (u.map ESGRecord.ticker).Nodup)
    (hsent : ∀ l ∈ lines, l.ticker ≠ "PORTFOLIO_TOTAL") :
    ∃ rows, rank_portfolio now lines u = Except.ok rows ∧
      rows.length = lines.length + 1 ∧
      (rows.filter (fun row => decide (row.ticker = "PORTFOLIO_TOTAL"))).length = 1 := by
  have hlen : (sortedRows lines u).length = lines.length := by
    rw [(sortedRows_perm lines u).length_eq]
    unfold preRows
    rw [List.length_map]
    exact joinedRows_length lines u hnodup
  have hpre : (preRows lines u).filter
      (fun row => decide (row.ticker = "PORTFOLIO_TOTAL")) = [] := by
    rw [List.filter_eq_nil_iff]
    intro row hrow
    rcases (mem_preRows lines u row).mp hrow with ⟨j, hj, hrowj⟩
    have hline : j.line ∈ lines := joinedRows_line_mem lines u j hj
    have : row.ticker = j.line.ticker := by
      rw [← hrowj]
      rfl
    simp only [decide_eq_true_eq, this]
    exact hsent j.line hline
  refine ⟨_, rank_eq_ok now lines u hw hu, ?_, ?_⟩
  · rw [List.length_append, hlen]
    rfl
  · rw [List.filter_append]
    have h1 : ((sortedRows lines u).filter
        (fun row => decide (row.ticker = "PORTFOLIO_TOTAL"))).length = 0 := by
      rw [((sortedRows_perm lines u).filter _).length_eq, hpre]
      rfl
    rw [List.length_append, h1]
    rfl

/-- Witness for the amended C8 at the demo portfolio and universe. -/
theorem rank_portfolio_row_count_witness :
    (demoUniverse.map ESGRecord.ticker).Nodup ∧
    ∃ rows, rank_portfolio demoNow demoLines demoUniverse = Except.ok rows ∧
      rows.length = demoLines.length + 1 ∧
      (rows.filter (fun row => decide (row.ticker = "PORTFOLIO_TOTAL"))).length = 1 :=
  ⟨by simp [demoUniverse],
   rank_portfolio_row_count demoNow demoLines demoUniverse
     (by norm_num [npIsClose, weightSum, demoLines]) (by simp [demoUniverse])
     (by simp [demoUniverse])
     (by intro l hl; fin_cases hl <;> simp [demoLines])⟩

/-- Counterexample to C8 as stated: the valid full-weight input line whose
ticker is literally `"PORTFOLIO_TOTAL"` is unmatched in the demo universe,
so the output contains two rows carrying the sentinel ticker (the echoed
holding and the appended summary), not exactly one. -/
theorem rank_portfolio_sentinel_cex :
    npIsClose (weightSum sentinelLines) 1 (1e-6) (1e-5) ∧
    (demoUniverse.map ESGRecord.ticker).Nodup ∧
    (rank_portfolio demoNow sentinelLines demoUniverse).map
        (fun rows => (rows.filter (fun row => decide (row.ticker = "PORTFOLIO_TOTAL"))).length) =
      Except.ok 2 := by
  refine ⟨by norm_num [npIsClose, weightSum, sentinelLines], by simp [demoUniverse], ?_⟩
  have hw : npIsClose (weightSum sentinelLines) 1 (1e-6) (1e-5) := by
    norm_num [npIsClose, weightSum, sentinelLines]
  rw [rank_eq_ok demoNow sentinelLines demoUniverse hw (by simp [demoUniverse])]
  norm_num [sentinelLines, demoUniverse, sortedRows, preRows, joinedRows, joinOne,
    preRow, fillRecord, summary_row, rowDescRel, esgScores, roicScores,
    List.orderedInsert, Except.map, List.filter]

/-- Claim C10: a holding with an unmatched ticker gets z-scores computed from
its zero-substituted metrics, namely `(0 - mean) / sqrt(var)` against the
universe, which is nonzero whenever the universe mean is nonzero and its
variance is positive. -/
theorem rank_portfolio_unmatched_zscore (now : String) (lines : List PortfolioLine)
    (u : List ESGRecord)
    (l : PortfolioLine) (hw : npIsClose (weightSum lines) 1 (1e-6) (1e-5)) (hu : u ≠ [])
    (hl : l ∈ lines) (hmiss : ∀ r ∈ u, r.ticker ≠ l.ticker)
    (hv1 : 0 < sampleVar (esgScores u)) (hv2 : 0 < sampleVar (roicScores u))
    (hm1 : listMean (esgScores u) ≠ 0) (hm2 : listMean (roicScores u) ≠ 0) :
    ∃ rows, rank_portfolio now lines u = Except.ok rows ∧
      ∃ row ∈ rows, row.ticker = l.ticker ∧
        row.esg_zscore =
          (((0 : ℚ) - listMean (esgScores u) : ℚ) : ℝ) /
            Real.sqrt ((sampleVar (esgScores u) : ℚ) : ℝ) ∧
        row.esg_zscore ≠ 0 ∧
        row.roic_zscore =
          (((0 : ℚ) - listMean (roicScores u) : ℚ) : ℝ) /
            Real.sqrt ((sampleVar (roicScores u) : ℚ) : ℝ) ∧
        row.roic_zscore ≠ 0 := by
  obtain ⟨hmem, _⟩ := unmatched_mem lines u l hl hmiss
  have hesg : (preRow u ⟨l, none⟩).esg_zscore =
      (((0 : ℚ) - listMean (esgScores u) : ℚ) : ℝ) /
        Real.sqrt ((sampleVar (esgScores u) : ℚ) : ℝ) := by
    show zscoreVal 0 (esgScores u) = _
    unfold zscoreVal
    rw [if_pos hv1]
    push_cast
    ring_nf
  have hroic : (preRow u ⟨l, none⟩).roic_zscore =
      (((0 : ℚ) - listMean (roicScores u) : ℚ) : ℝ) /
        Real.sqrt ((sampleVar (roicScores u) : ℚ) : ℝ) := by
    show zscoreVal 0 (roicScores u) = _
    unfold zscoreVal
    rw [if_pos hv2]
    push_cast
    ring_nf
  have hqe1 : ((0 : ℚ) - listMean (esgScores u) : ℚ) ≠ 0 := by
    rw [zero_sub]
    exact neg_ne_zero.mpr hm1
  have hqe2 : ((0 : ℚ) - listMean (roicScores u) : ℚ) ≠ 0 := by
    rw [zero_sub]
    exact neg_ne_zero.mpr hm2
  have hs1 : Real.sqrt ((sampleVar (esgScores u) : ℚ) : ℝ) ≠ 0 :=
    ne_of_gt (Real.sqrt_pos.mpr (by exact_mod_cast hv1))
  have hs2 : Real.sqrt ((sampleVar (roicScores u) : ℚ) : ℝ) ≠ 0 :=
    ne_of_gt (Real.sqrt_pos.mpr (by exact_mod_cast hv2))
  refine ⟨_, rank_eq_ok now lines u hw hu,
    preRow u ⟨l, none⟩, List.mem_append_left _ hmem, rfl, hesg, ?_, hroic, ?_⟩
  · rw [hesg]
    exact div_ne_zero (by exact_mod_cast hqe1) hs1
  · rw [hroic]
    exact div_ne_zero (by exact_mod_cast hqe2) hs2

/-- Witness for C10 at a full-weight unmatched line over the varied
universe (positive variances, nonzero means). -/
theorem rank_portfolio_unmatched_zscore_witness :
    0 < sampleVar (esgScores variedUniverse) ∧
    listMean (esgScores variedUniverse) ≠ 0 ∧
    ∃ rows, rank_portfolio demoNow unmatchedLines variedUniverse = Except.ok rows ∧
      ∃ row ∈ rows, row.ticker = (⟨"ZZZZ", 1⟩ : PortfolioLine).ticker ∧
        row.esg_zscore =
          (((0 : ℚ) - listMean (esgScores variedUniverse) : ℚ) : ℝ) /
            Real.sqrt ((sampleVar (esgScores variedUniverse) : ℚ) : ℝ) ∧
        row.esg_zscore ≠ 0 ∧
        row.roic_zscore =
          (((0 : ℚ) - listMean (roicScores variedUniverse) : ℚ) : ℝ) /
            Real.sqrt ((sampleVar (roicScores variedUniverse) : ℚ) : ℝ) ∧
        row.roic_zscore ≠ 0 :=
  ⟨by norm_num [sampleVar, listMean, esgScores, variedUniverse],
   by norm_num [listMean, esgScores, variedUniverse],
   rank_portfolio_unmatched_zscore demoNow unmatchedLines variedUniverse ⟨"ZZZZ", 1⟩
     (by norm_num [npIsClose, weightSum, unmatchedLines]) (by simp [variedUniverse])
     (by simp [unmatchedLines])
     (by intro r hr; fin_cases hr <;> simp [variedUniverse])
     (by norm_num [sampleVar, listMean, esgScores, variedUniverse])
     (by norm_num [sampleVar, listMean, roicScores, variedUniverse])
     (by norm_num [listMean, esgScores, variedUniverse])
     (by norm_num [listMean, roicScores, variedUniverse])⟩

end ESGEngine
